import Mathlib

/-
Verification development for the rapids_benchmarks repository.

The repository consists of two benchmark notebooks,
src/cuML/classification.ipynb and src/cuML/linear_regression.ipynb.
Each notebook runs a four-stage benchmark twice, once per backend
(cuML on GPU, scikit-learn on CPU): generate synthetic data, split it,
fit a model under a wall-clock timer, and score the predictions on the
held-out part.  The notebooks also record their outputs (scores, shapes,
dtypes, timings) in the committed cells.

This file embeds, shallowly:
  1. the literal configuration constants of every cell;
  2. the numeric outputs recorded in the committed notebook cells,
     as exact rationals;
  3. the statement order of each benchmark cell, as an event trace
     (used to reason about what the timing measurements bracket);
  4. models, written from the design document, of the library
     components that the repository calls but does not contain
     (data generator, train/test splitter, model persistence).
-/

namespace RapidsBench

/-! ## Configuration constants, taken literally from the notebook cells -/

/-- Where a benchmark cell obtains its dataset: either it calls the data
generator with a seed, or it reuses arrays produced earlier in the notebook. -/
inductive DataSource where
  | generate (seed : Nat)
  | reuseExisting
deriving DecidableEq, Repr

/-- Hyperparameters of a random-forest classification benchmark cell
(classification.ipynb).  `split_train_size = none` means the cell calls
train_test_split without a train_size argument, i.e. the library default
ratio. -/
structure RFConfig where
  n_samples : Nat
  n_features : Nat
  n_classes : Nat
  n_estimators : Nat
  max_depth : Nat
  split_train_size : Option ℚ
  split_seed : Nat
  model_seed : Nat
deriving DecidableEq, Repr

/-- Hyperparameters of a linear-regression benchmark cell
(linear_regression.ipynb). -/
structure LRConfig where
  n_samples : Nat
  n_features : Nat
  n_info : Nat
  gen_seed : Nat
  train_size : ℚ
  split_seed : Nat
deriving DecidableEq, Repr

/-- cuML classification cell: n_samples = 100000, n_features = 10,
n_classes = 2, n_estimators = 25, max_depth = 10, split with default
ratio and random_state = 0, model random_state = 0. -/
def cuRF_config : RFConfig :=
  { n_samples := 100000, n_features := 10, n_classes := 2
    n_estimators := 25, max_depth := 10
    split_train_size := none, split_seed := 0, model_seed := 0 }

/-- The cuML classification cell generates its data with
make_classification(..., random_state = 0). -/
def cuRF_dataSource : DataSource := .generate 0

/-- scikit-learn classification cell: the same literal constants are
re-assigned (100000, 10, 2, 25, 10), split uses random_state = 0 with the
default ratio, and the model uses random_state = 0. -/
def skRF_config : RFConfig :=
  { n_samples := 100000, n_features := 10, n_classes := 2
    n_estimators := 25, max_depth := 10
    split_train_size := none, split_seed := 0, model_seed := 0 }

/-- The scikit-learn classification cell has its make_classification call
commented out and splits asnumpy(X), asnumpy(y), the arrays generated by
the cuML cell. -/
def skRF_dataSource : DataSource := .reuseExisting

/-- cuML regression cell: n_samples = 100000, n_features = 256,
n_info = 70, make_regression random_state = 123, split train_size = 0.8
with random_state = 10. -/
def cuLR_config : LRConfig :=
  { n_samples := 100000, n_features := 256, n_info := 70
    gen_seed := 123, train_size := 4/5, split_seed := 10 }

def cuLR_dataSource : DataSource := .generate 123

/-- scikit-learn regression cell: re-assigns the same constants
(100000, 256, 70), calls the same (cuML) make_regression with
random_state = 123, and splits with train_size = 0.8, random_state = 10. -/
def skLR_config : LRConfig :=
  { n_samples := 100000, n_features := 256, n_info := 70
    gen_seed := 123, train_size := 4/5, split_seed := 10 }

def skLR_dataSource : DataSource := .generate 123

/-! ## Outputs recorded in the committed notebook cells, as exact rationals -/

/-- classification.ipynb recorded output: cuml accuracy 0.9949600100517273. -/
def recorded_cu_accuracy : ℚ := 9949600100517273 / 10 ^ 16

/-- classification.ipynb recorded output: sklearn accuracy_score applied to
the same (converted) labels and predictions as the cuml score: 0.99496. -/
def recorded_sk_accuracy_on_cu_preds : ℚ := 99496 / 10 ^ 5

/-- classification.ipynb recorded output of the scikit-learn benchmark
cell: accuracy 0.9936. -/
def recorded_sk_cell_accuracy : ℚ := 9936 / 10 ^ 4

/-- linear_regression.ipynb recorded output: cuml r2 score 1.0. -/
def recorded_cu_r2 : ℚ := 1

/-- linear_regression.ipynb recorded output: sklearn r2_score applied to
the same (converted) targets and predictions as the cuml score:
0.999999999994969. -/
def recorded_sk_r2_on_cu_preds : ℚ := 999999999994969 / 10 ^ 15

/-- linear_regression.ipynb recorded output of the scikit-learn benchmark
cell: r2 score 0.9999999999977812. -/
def recorded_sk_cell_r2 : ℚ := 9999999999977812 / 10 ^ 16

/-- Shape and element type of an array, as printed by the notebook. -/
structure ArrayInfo where
  rows : Nat
  cols : Nat
  dtype : String
deriving DecidableEq, Repr

/-- linear_regression.ipynb recorded output:
"Shape of X_reg (100000, 256) ... Type (dtype('float32'), ...)". -/
def recorded_X_reg_info : ArrayInfo := { rows := 100000, cols := 256, dtype := "float32" }

/-- linear_regression.ipynb recorded output:
"... y_reg (100000, 1) and Type (..., dtype('float32'))". -/
def recorded_y_reg_info : ArrayInfo := { rows := 100000, cols := 1, dtype := "float32" }

/-! ## Statement traces of the four benchmark cells

Each benchmark cell is straight-line code.  We record, in source order,
the operations each cell performs; imports and the assignments of the
literal configuration constants at the top of a cell are omitted, every
library call and time reading is kept. -/

inductive Op where
  | timeRead        -- a time.time() reading
  | fitCall         -- model.fit(...)
  | ctorCall        -- construction of the model object
  | predictCall     -- model.predict(...)
  | genCall         -- make_classification / make_regression
  | splitCall       -- train_test_split
  | scoreCall       -- accuracy_score / r2_score
  | assignStmt      -- plain assignment (elapsed-time computation)
  | printStmt       -- print(...)
  | dumpCall        -- joblib dump
  | loadCall        -- joblib load
deriving DecidableEq, Repr, BEq

/-- cuML classification cell (classification.ipynb, cell 2), in source
order: generate, split, construct cuRF, time, fit, time, elapsed-time
assignment, predict, two scores, three prints, dump, load. -/
def cuRF_trace : List Op :=
  [.genCall, .splitCall, .ctorCall, .timeRead, .fitCall, .timeRead,
   .assignStmt, .predictCall, .scoreCall, .scoreCall,
   .printStmt, .printStmt, .printStmt, .dumpCall, .loadCall]

/-- scikit-learn classification cell (classification.ipynb, cell 3):
the generation call is commented out; split, construct, time, fit, time,
elapsed-time assignment, predict, score, two prints. -/
def skRF_trace : List Op :=
  [.splitCall, .ctorCall, .timeRead, .fitCall, .timeRead,
   .assignStmt, .predictCall, .scoreCall, .printStmt, .printStmt]

/-- cuML regression cell (linear_regression.ipynb, cell 3): generate,
shape print, split, construct cuLR, time, fit, time, elapsed-time
assignment, predict, two scores, three prints, dump (the reload line is
commented out). -/
def cuLR_trace : List Op :=
  [.genCall, .printStmt, .splitCall, .ctorCall, .timeRead, .fitCall, .timeRead,
   .assignStmt, .predictCall, .scoreCall, .scoreCall,
   .printStmt, .printStmt, .printStmt, .dumpCall]

/-- scikit-learn regression cell (linear_regression.ipynb, cell 4):
generate, split, time, construct LinearRegression, fit, time,
elapsed-time assignment, predict, score, two prints.  Note that the
constructor call sits between the two time readings. -/
def skLR_trace : List Op :=
  [.genCall, .splitCall, .timeRead, .ctorCall, .fitCall, .timeRead,
   .assignStmt, .predictCall, .scoreCall, .printStmt, .printStmt]

/-- The operations strictly between the first time.time() reading and the
next one: the region whose wall-clock duration the cell records. -/
def timedRegion (tr : List Op) : List Op :=
  ((tr.dropWhile (fun o => o != Op.timeRead)).drop 1).takeWhile
    (fun o => o != Op.timeRead)

/-! ## Spec-modelled library components

The repository calls cuml.model_selection.train_test_split,
cuml.datasets.make_regression / make_classification and joblib
dump / load, but contains none of their code.  The design document
specifies their contracts; the definitions below follow those words. -/

/-- A linear congruential step, the deterministic pseudo-random source of
the models below. -/
def lcg (s : Nat) : Nat := (1103515245 * s + 12345) % 2147483648

/-- Draw the elements of a list in a seed-determined order (a
Fisher-Yates shuffle driven by `lcg`); `fuel` bounds the recursion and is
instantiated with the length of the list. -/
def drawAll : Nat → Nat → List Nat → List Nat
  | 0, _, l => l
  | _ + 1, _, [] => []
  | fuel + 1, s, a :: rest =>
    (a :: rest).get ⟨lcg s % (a :: rest).length, Nat.mod_lt _ (Nat.succ_pos _)⟩ ::
      drawAll fuel (lcg s) ((a :: rest).eraseIdx (lcg s % (a :: rest).length))

/-- Seed-determined permutation of a list. -/
def shuffle (seed : Nat) (l : List Nat) : List Nat := drawAll l.length seed l

/-- The size of the training subset of a dataset of `n` samples under
split fraction `frac`: round(n * frac), as the design document specifies. -/
def trainSize (n : Nat) (frac : ℚ) : Nat := (round ((n : ℚ) * frac)).toNat

/-- Modelled from the spec: the Splitter (train_test_split, an external
library routine not in this repository).  Given a dataset of sample
indices, a split fraction and a seed, it permutes the samples in a
seed-determined way and returns the first round(N * frac) of them as the
training subset and the rest as the testing subset. -/
def train_test_split (seed : Nat) (frac : ℚ) (l : List Nat) :
    List Nat × List Nat :=
  let p := shuffle seed l
  (p.take (trainSize l.length frac), p.drop (trainSize l.length frac))

/-- A generated dataset: feature matrix and target column, exact
rationals standing for the numeric entries.  The target is a column of
one-element rows, mirroring the (n_samples, 1) layout the regression
notebook records. -/
structure Dataset where
  X : List (List ℚ)
  y : List (List ℚ)
deriving DecidableEq, Repr

/-- A stream of `n` pseudo-random naturals from seed `s`. -/
def lcgStream : Nat → Nat → List Nat
  | 0, _ => []
  | n + 1, s => lcg s :: lcgStream n (lcg s)

/-- A row of `cols` pseudo-random rationals in [-1, 1] from seed `s`. -/
def randRow (s cols : Nat) : List ℚ :=
  (lcgStream cols s).map (fun v => ((v % 2001 : Nat) : ℚ) / 1000 - 1)

/-- A `rows` by `cols` pseudo-random matrix from seed `s`. -/
def genMatrix (s rows cols : Nat) : List (List ℚ) :=
  match rows with
  | 0 => []
  | r + 1 => randRow s cols :: genMatrix (lcg (s + 1)) r cols

/-- Dot product of two coefficient rows. -/
def dot (a b : List ℚ) : ℚ := (List.zipWith (fun x y => x * y) a b).sum

/-- Modelled from the spec: the regression Data Generator
(cuml.datasets.make_regression, an external library routine not in this
repository).  Given sample count, feature count, informative-feature
count and a seed, it first validates the parameter constraint
n_informative ≤ n_features, failing fast with a descriptive error before
generating anything, and otherwise produces a reproducible dataset whose
target is a linear function of the informative features. -/
def make_regression (n_samples n_features n_informative random_state : Nat) :
    Except String Dataset :=
  if n_informative > n_features then
    .error "make_regression: n_informative must not exceed n_features"
  else
    let X := genMatrix random_state n_samples n_features
    let w := randRow (lcg random_state) n_informative ++
      List.replicate (n_features - n_informative) 0
    .ok { X := X, y := X.map (fun row => [dot row w]) }

/-- Modelled from the spec: the classification Data Generator
(cuml.datasets.classification.make_classification, an external library
routine not in this repository).  Same fail-fast validation of
n_informative ≤ n_features, then a reproducible dataset whose labels in
{0, ..., n_classes - 1} are determined by a linear function of the
informative features.  The target is a flat label vector. -/
def make_classification
    (n_classes n_features n_samples n_informative random_state : Nat) :
    Except String (List (List ℚ) × List ℚ) :=
  if n_informative > n_features then
    .error "make_classification: n_informative must not exceed n_features"
  else
    let X := genMatrix random_state n_samples n_features
    let w := randRow (lcg random_state) n_informative ++
      List.replicate (n_features - n_informative) 0
    .ok (X, X.map (fun row =>
      (((⌊dot row w * 1000⌋).toNat % max n_classes 1 : Nat) : ℚ)))

/-- Modelled from the spec: a trained Model with its learned parameters,
standing for the opaque backend model objects the notebooks persist with
joblib.  Predictions are the affine map the parameters define. -/
structure LinModel where
  coef : List ℚ
  intercept : ℚ
deriving DecidableEq, Repr

/-- Prediction of a linear model on a feature row. -/
def predict (m : LinModel) (x : List ℚ) : ℚ := dot m.coef x + m.intercept

/-- Modelled from the spec: serialization of a Model to a flat blob
(joblib dump, external to this repository). -/
def save (m : LinModel) : List ℚ := m.intercept :: m.coef

/-- Modelled from the spec: deserialization of a Model from a blob
(joblib load, external to this repository); fails on a malformed blob. -/
def load : List ℚ → Option LinModel
  | [] => none
  | b :: coefs => some { coef := coefs, intercept := b }

/-! ## Splitter lemmas -/

/-- Consing the element at index `i` onto the list with index `i` erased
permutes the original list. -/
theorem get_cons_eraseIdx_perm (l : List Nat) (i : Fin l.length) :
    (l.get i :: l.eraseIdx i).Perm l := by
  have hmem : l.get i ∈ l := l.get_mem _ i.isLt
  have h1 : l.Perm (l.get i :: l.erase (l.get i)) := List.perm_cons_erase hmem
  have h2 : (l.erase (l.get i)).Perm (l.eraseIdx i) := by
    simpa using List.erase_getElem i.isLt
  exact ((h2.symm.cons (l.get i)).trans h1.symm)

/-- The seed-driven draw is a permutation of its input. -/
theorem drawAll_perm : ∀ (fuel s : Nat) (l : List Nat), (drawAll fuel s l).Perm l
  | 0, _, l => List.Perm.refl l
  | _ + 1, _, [] => List.Perm.refl []
  | fuel + 1, s, a :: rest => by
    simp only [drawAll]
    exact ((drawAll_perm fuel (lcg s) _).cons _).trans
      (get_cons_eraseIdx_perm (a :: rest) ⟨_, Nat.mod_lt _ (Nat.succ_pos _)⟩)

/-- Shuffling is a permutation. -/
theorem shuffle_perm (seed : Nat) (l : List Nat) : (shuffle seed l).Perm l :=
  drawAll_perm _ _ _

/-- For a fraction at most one, the training size never exceeds the
dataset size. -/
theorem trainSize_le (n : Nat) (frac : ℚ) (_h0 : 0 ≤ frac) (h1 : frac ≤ 1) :
    trainSize n frac ≤ n := by
  have hn : (0 : ℚ) ≤ (n : ℚ) := by positivity
  have hx : (n : ℚ) * frac ≤ (n : ℚ) := by
    calc (n : ℚ) * frac ≤ (n : ℚ) * 1 := mul_le_mul_of_nonneg_left h1 hn
    _ = (n : ℚ) := mul_one _
  have h2 : (round ((n : ℚ) * frac) : ℚ) ≤ (n : ℚ) + 1 / 2 :=
    le_trans (round_le_add_half _) (by linarith)
  have h3 : round ((n : ℚ) * frac) ≤ (n : ℤ) := by
    have hlt : (round ((n : ℚ) * frac) : ℚ) < ((n : ℤ) : ℚ) + 1 := by
      push_cast; linarith
    have : round ((n : ℚ) * frac) < (n : ℤ) + 1 := by exact_mod_cast hlt
    omega
  exact Int.toNat_le.mpr h3

/-! ## Claim theorems -/

/-- C1: for every dataset of distinct sample indices, split fraction in
[0, 1] and seed, the Splitter returns a training subset of size
round(N * fraction) and a testing subset of size N minus that value, the
two are disjoint, their concatenation is a permutation of the original
dataset, and repeated invocation with the same dataset and seed returns
identical subsets. -/
theorem splitter_correct_c1 (seed : Nat) (frac : ℚ) (l : List Nat)
    (hnd : l.Nodup) (h0 : 0 ≤ frac) (h1 : frac ≤ 1) :
    (train_test_split seed frac l).1.length = trainSize l.length frac ∧
    (train_test_split seed frac l).2.length = l.length - trainSize l.length frac ∧
    List.Disjoint (train_test_split seed frac l).1 (train_test_split seed frac l).2 ∧
    ((train_test_split seed frac l).1 ++ (train_test_split seed frac l).2).Perm l ∧
    train_test_split seed frac l = train_test_split seed frac l := by
  have hp : (shuffle seed l).Perm l := shuffle_perm seed l
  have hplen : (shuffle seed l).length = l.length := hp.length_eq
  have hk : trainSize l.length frac ≤ l.length := trainSize_le _ _ h0 h1
  refine ⟨?_, ?_, ?_, ?_, rfl⟩
  · simp [train_test_split, hplen, Nat.min_eq_left hk]
  · simp [train_test_split, hplen]
  · exact List.disjoint_take_drop (hp.nodup_iff.mpr hnd) le_rfl
  · simpa [train_test_split, List.take_append_drop] using hp

/-- Witness for C1 at the concrete dataset [0, ..., 9], fraction 4/5 and
seed 10. -/
theorem splitter_correct_c1_witness :
    ([0, 1, 2, 3, 4, 5, 6, 7, 8, 9] : List Nat).Nodup ∧
    (0 : ℚ) ≤ 4 / 5 ∧ (4 / 5 : ℚ) ≤ 1 ∧
    ((train_test_split 10 (4 / 5) [0, 1, 2, 3, 4, 5, 6, 7, 8, 9]).1.length =
        trainSize ([0, 1, 2, 3, 4, 5, 6, 7, 8, 9] : List Nat).length (4 / 5) ∧
      (train_test_split 10 (4 / 5) [0, 1, 2, 3, 4, 5, 6, 7, 8, 9]).2.length =
        ([0, 1, 2, 3, 4, 5, 6, 7, 8, 9] : List Nat).length -
          trainSize ([0, 1, 2, 3, 4, 5, 6, 7, 8, 9] : List Nat).length (4 / 5) ∧
      List.Disjoint (train_test_split 10 (4 / 5) [0, 1, 2, 3, 4, 5, 6, 7, 8, 9]).1
        (train_test_split 10 (4 / 5) [0, 1, 2, 3, 4, 5, 6, 7, 8, 9]).2 ∧
      ((train_test_split 10 (4 / 5) [0, 1, 2, 3, 4, 5, 6, 7, 8, 9]).1 ++
        (train_test_split 10 (4 / 5) [0, 1, 2, 3, 4, 5, 6, 7, 8, 9]).2).Perm
          [0, 1, 2, 3, 4, 5, 6, 7, 8, 9] ∧
      train_test_split 10 (4 / 5) [0, 1, 2, 3, 4, 5, 6, 7, 8, 9] =
        train_test_split 10 (4 / 5) [0, 1, 2, 3, 4, 5, 6, 7, 8, 9]) :=
  ⟨by decide, by norm_num, by norm_num,
    splitter_correct_c1 10 (4 / 5) [0, 1, 2, 3, 4, 5, 6, 7, 8, 9]
      (by decide) (by norm_num) (by norm_num)⟩

/-- C2: reloading a saved Model succeeds and the reloaded Model predicts
exactly what the original predicts on every feature row (exact equality
over the rationals, hence within any agreed tolerance). -/
theorem persistence_roundtrip_c2 (m : LinModel) :
    load (save m) = some m ∧
    ∀ x : List ℚ, (load (save m)).map (fun m2 => predict m2 x) =
      some (predict m x) :=
  ⟨rfl, fun _ => rfl⟩

/-- C3: with equal seeds and equal generation parameters, two calls of
the Data Generator return identical feature matrices and targets. -/
theorem generator_deterministic_c3 (ns nf ni nc s1 s2 : Nat) (h : s1 = s2) :
    make_regression ns nf ni s1 = make_regression ns nf ni s2 ∧
    make_classification nc nf ns ni s1 = make_classification nc nf ns ni s2 := by
  subst h; exact ⟨rfl, rfl⟩

/-- Witness for C3 at seed 42 with concrete small dimensions. -/
theorem generator_deterministic_c3_witness :
    (42 : Nat) = 42 ∧
    (make_regression 5 4 3 42 = make_regression 5 4 3 42 ∧
      make_classification 2 4 5 3 42 = make_classification 2 4 5 3 42) :=
  ⟨rfl, generator_deterministic_c3 5 4 3 2 42 42 rfl⟩

/-- C8: when the informative-feature count exceeds the feature count,
both Data Generators return a descriptive error and produce no data. -/
theorem generator_fail_fast_c8 (ns nf ni nc s : Nat) (h : nf < ni) :
    make_regression ns nf ni s =
      .error "make_regression: n_informative must not exceed n_features" ∧
    make_classification nc nf ns ni s =
      .error "make_classification: n_informative must not exceed n_features" := by
  constructor <;> simp [make_regression, make_classification, h]

/-- Witness for C8 at three features but five informative features. -/
theorem generator_fail_fast_c8_witness :
    (3 : Nat) < 5 ∧
    (make_regression 10 3 5 0 =
        .error "make_regression: n_informative must not exceed n_features" ∧
      make_classification 2 3 10 5 0 =
        .error "make_classification: n_informative must not exceed n_features") :=
  ⟨by decide, generator_fail_fast_c8 10 3 5 2 0 (by decide)⟩

/-- C4 counterexample: the regression benchmark cells are configured with
100000 samples, 256 features, 70 informative features and seed 123, not
with the 1000 samples, 20 features, 10 informative features and seed 42
the claim states. -/
theorem regression_scenario_c4_counterexample :
    cuLR_config.n_samples = 100000 ∧ cuLR_config.n_features = 256 ∧
    cuLR_config.n_info = 70 ∧ cuLR_config.gen_seed = 123 ∧
    ¬(cuLR_config.n_samples = 1000 ∧ cuLR_config.n_features = 20 ∧
      cuLR_config.n_info = 10 ∧ cuLR_config.gen_seed = 42) := by
  decide

/-- C4 amended: the regression harness generates 100000 samples with 256
features and 70 informative features under seed 123, splits 80/20 with
seed 10 in both cells, and every recorded R2 score (cuML, the sklearn
metric on the cuML predictions, and the sklearn benchmark cell) is at
least 0.95. -/
theorem regression_scenario_c4_amended :
    cuLR_config = { n_samples := 100000, n_features := 256, n_info := 70
                    gen_seed := 123, train_size := 4/5, split_seed := 10 } ∧
    skLR_config = cuLR_config ∧
    recorded_cu_r2 ≥ 95 / 100 ∧ recorded_sk_r2_on_cu_preds ≥ 95 / 100 ∧
    recorded_sk_cell_r2 ≥ 95 / 100 := by
  refine ⟨rfl, rfl, ?_, ?_, ?_⟩ <;> norm_num [recorded_cu_r2,
    recorded_sk_r2_on_cu_preds, recorded_sk_cell_r2]

/-- C5 counterexample: the classification benchmark cells are configured
with 100000 samples, not the 1000 samples the claim states. -/
theorem classification_scenario_c5_counterexample :
    cuRF_config.n_samples = 100000 ∧ ¬ cuRF_config.n_samples = 1000 := by
  decide

/-- C5 amended: the classification harness generates 100000 samples with
2 classes under seed 0, splits with the library default ratio (no
train_size argument) and seed 0, and both recorded accuracies (cuML cell
and sklearn cell) are at least 0.90. -/
theorem classification_scenario_c5_amended :
    cuRF_config.n_samples = 100000 ∧ cuRF_config.n_classes = 2 ∧
    cuRF_dataSource = DataSource.generate 0 ∧
    cuRF_config.split_train_size = none ∧ cuRF_config.split_seed = 0 ∧
    recorded_cu_accuracy ≥ 9 / 10 ∧ recorded_sk_cell_accuracy ≥ 9 / 10 := by
  refine ⟨rfl, rfl, rfl, rfl, rfl, ?_, ?_⟩ <;>
    norm_num [recorded_cu_accuracy, recorded_sk_cell_accuracy]

/-- C6 counterexample: on the recorded run, the accelerated and reference
scoring functions were applied to the same converted labels and
predictions, and the recorded scores are not equal: the cuML r2 score is
1.0 while the sklearn r2 score on the same inputs is 0.999999999994969,
and likewise the recorded accuracies 0.9949600100517273 and 0.99496
differ. -/
theorem scoring_equality_c6_counterexample :
    recorded_cu_r2 ≠ recorded_sk_r2_on_cu_preds ∧
    recorded_cu_accuracy ≠ recorded_sk_accuracy_on_cu_preds := by
  constructor <;>
    norm_num [recorded_cu_r2, recorded_sk_r2_on_cu_preds,
      recorded_cu_accuracy, recorded_sk_accuracy_on_cu_preds]

/-- C6 amended: on the same converted inputs both scoring functions
return scores that agree within 10^(-7): the recorded accelerated and
reference r2 scores differ by at most 10^(-7), and the recorded
accelerated and reference accuracies differ by at most 10^(-7). -/
theorem scoring_tolerance_c6_amended :
    |recorded_cu_r2 - recorded_sk_r2_on_cu_preds| ≤ 1 / 10 ^ 7 ∧
    |recorded_cu_accuracy - recorded_sk_accuracy_on_cu_preds| ≤ 1 / 10 ^ 7 := by
  constructor <;>
    rw [abs_le] <;> constructor <;>
      norm_num [recorded_cu_r2, recorded_sk_r2_on_cu_preds,
        recorded_cu_accuracy, recorded_sk_accuracy_on_cu_preds]

/-- C7 counterexample: in the scikit-learn regression cell the region
between the two time.time() readings is the constructor call followed by
the fit call, not a fit call alone. -/
theorem timing_c7_counterexample :
    timedRegion skLR_trace = [Op.ctorCall, Op.fitCall] ∧
    timedRegion skLR_trace ≠ [Op.fitCall] := by
  decide

/-- C7 amended: every benchmark cell reads the clock exactly twice and
its timed region contains exactly one fit call; in three of the four
cells the timed region is exactly the fit call, while in the
scikit-learn regression cell the model constructor also executes inside
the timed region. -/
theorem timing_brackets_c7_amended :
    cuRF_trace.count Op.timeRead = 2 ∧ skRF_trace.count Op.timeRead = 2 ∧
    cuLR_trace.count Op.timeRead = 2 ∧ skLR_trace.count Op.timeRead = 2 ∧
    (timedRegion cuRF_trace).count Op.fitCall = 1 ∧
    (timedRegion skRF_trace).count Op.fitCall = 1 ∧
    (timedRegion cuLR_trace).count Op.fitCall = 1 ∧
    (timedRegion skLR_trace).count Op.fitCall = 1 ∧
    timedRegion cuRF_trace = [Op.fitCall] ∧
    timedRegion skRF_trace = [Op.fitCall] ∧
    timedRegion cuLR_trace = [Op.fitCall] ∧
    timedRegion skLR_trace = [Op.ctorCall, Op.fitCall] := by
  decide

/-- C9: in each notebook the accelerated and the reference cell carry
identical hyperparameter values; the classification reference cell reuses
the GPU-generated arrays (its own generation call is commented out), and
the regression reference cell regenerates with the same generator under
the same seed 123, so the two backends of a notebook see the same data. -/
theorem backend_parity_c9 :
    cuRF_config = skRF_config ∧
    cuRF_dataSource = DataSource.generate 0 ∧
    skRF_dataSource = DataSource.reuseExisting ∧
    cuLR_config = skLR_config ∧
    cuLR_dataSource = DataSource.generate 123 ∧
    skLR_dataSource = DataSource.generate 123 :=
  ⟨rfl, rfl, rfl, rfl, rfl, rfl⟩

/-- C10: the recorded regression run prints a feature matrix of shape
(n_samples, n_features) = (100000, 256) and a target of two-dimensional
shape (n_samples, 1) = (100000, 1), both of dtype float32. -/
theorem regression_shapes_c10 :
    recorded_X_reg_info =
      { rows := cuLR_config.n_samples, cols := cuLR_config.n_features
        dtype := "float32" } ∧
    recorded_y_reg_info =
      { rows := cuLR_config.n_samples, cols := 1, dtype := "float32" } ∧
    recorded_y_reg_info.cols = 1 := by
  refine ⟨rfl, rfl, rfl⟩

end RapidsBench
